import Mathlib

/-
  Verification of the health-check script `src/TOOL HR/frontend/app.js`.

  The script reads one DOM element (`statusEl`), defines `API_BASE_URL`,
  defines `async function checkApiHealth()` and calls it once at load.
  We embed it shallowly: the element is a record of the two fields the
  script writes; the outcome of `await fetch(...)` is an explicit
  parameter (resolve with a response, or reject); the body is a pure
  function producing the ordered trace of its observable actions
  (function entry, DOM field assignments, the network request) together
  with an `Except` value recording whether an exception escapes the
  function (the promise would reject).
-/

/-- The status DOM element: the two mutable fields the script writes. -/
structure ElemState where
  textContent : String
  className : String
deriving DecidableEq

/-- A fetch `Response` as visible to the script: status code, body and
headers. The script only reads `ok`. -/
structure Response where
  status : Nat
  body : String
  headers : List (String × String)
deriving DecidableEq

/-- The `ok` getter of a fetch `Response` (Fetch standard): true iff the
status code is in the range 200–299. -/
def Response.ok (r : Response) : Bool := 200 ≤ r.status && r.status ≤ 299

/-- Outcome of `await fetch(url)`: the promise resolves with a response,
or rejects (network-level error / thrown exception). -/
inductive FetchOutcome
  | resolved (r : Response)
  | rejected (msg : String)
deriving DecidableEq

/-- `true` exactly when the outcome is a resolved response with an OK
status code: the success/failure classification the script consumes. -/
def FetchOutcome.isSuccess : FetchOutcome → Bool
  | .resolved r => r.ok
  | .rejected _ => false

/-- Observable actions of the script, in program order: entering
`checkApiHealth`, assigning `textContent`, assigning `className`, and
issuing the network request. -/
inductive Event
  | invoke
  | setText (s : String)
  | setClass (s : String)
  | fetchReq (url : String)
deriving DecidableEq

/-- `const API_BASE_URL = "http://localhost:8000";` -/
def API_BASE_URL : String := "http://localhost:8000"

/-- The template literal `API_BASE_URL/health` passed to `fetch`. -/
def healthUrl : String := API_BASE_URL ++ "/health"

/-- Whether an event is the network request. -/
def Event.isFetch : Event → Bool
  | .fetchReq _ => true
  | _ => false

/-- Whether an event is a function entry. -/
def Event.isInvoke : Event → Bool
  | .invoke => true
  | _ => false

/-- The `try` block after the `await fetch` settles: on rejection the
error propagates; on a non-OK response `throw new Error("API non
raggiungibile")`; on an OK response the two `Online` assignments run. -/
def tryBlock (net : FetchOutcome) : List Event × Except String Unit :=
  match net with
  | .rejected msg => ([], Except.error msg)
  | .resolved r =>
    if r.ok then
      ([Event.setText "Online", Event.setClass "pill success"], Except.ok ())
    else
      ([], Except.error "API non raggiungibile")

/-- The `catch (error)` handler: the two `Offline` assignments. -/
def catchBlock : List Event :=
  [Event.setText "Offline", Event.setClass "pill danger"]

/-- `async function checkApiHealth()`. `statusElPresent` is whether the
`document.getElementById("api-status")` lookup found the element
(`!statusEl` guard). The result is the ordered trace of observable
actions and whether an exception escapes the function. Statement order
follows the source: guard; the two `Connessione...` assignments; the
`fetch`; the `try`/`catch`. -/
def checkApiHealth (statusElPresent : Bool) (net : FetchOutcome) :
    List Event × Except String Unit :=
  if statusElPresent then
    let pre := [Event.invoke, Event.setText "Connessione...",
                Event.setClass "pill warning", Event.fetchReq healthUrl]
    match tryBlock net with
    | (evs, Except.ok ()) => (pre ++ evs, Except.ok ())
    | (evs, Except.error _) => (pre ++ evs ++ catchBlock, Except.ok ())
  else ([Event.invoke], Except.ok ())

/-- The top level of the script: exactly one call, `checkApiHealth();`,
at load. -/
def scriptLoad (statusElPresent : Bool) (net : FetchOutcome) :
    List Event × Except String Unit :=
  checkApiHealth statusElPresent net

/-- Effect of one event on the element. -/
def applyEvent (s : ElemState) : Event → ElemState
  | .setText t => { s with textContent := t }
  | .setClass c => { s with className := c }
  | _ => s

/-- Element state after a trace runs from an initial state. -/
def runEvents (s : ElemState) (evs : List Event) : ElemState :=
  evs.foldl applyEvent s

/-- The events that run synchronously before the first network request
is issued (before any suspension point). -/
def eventsBeforeFetch (evs : List Event) : List Event :=
  evs.takeWhile (fun e => !e.isFetch)

/-- Split a trace into the maximal segments separated by network
requests: segment boundaries are exactly the suspension points of the
single-threaded event loop. -/
def splitAtFetches : List Event → List (List Event)
  | [] => [[]]
  | e :: rest =>
    if e.isFetch then [] :: splitAtFetches rest
    else
      match splitAtFetches rest with
      | [] => [[e]]
      | seg :: segs => (e :: seg) :: segs

/-- The element states at the observation points of an invocation: at
each suspension point and when the function completes. Between two
consecutive synchronous statements no other code can observe the
element, so these are the only observable states. -/
def observedStates (init : ElemState) (evs : List Event) : List ElemState :=
  ((splitAtFetches evs).scanl runEvents init).drop 1

/-- The checking state the script displays while the request is in
flight. -/
def checkingState : ElemState := ⟨"Connessione...", "pill warning"⟩

/-- The terminal success state. -/
def onlineState : ElemState := ⟨"Online", "pill success"⟩

/-- The terminal failure state. -/
def offlineState : ElemState := ⟨"Offline", "pill danger"⟩

/-- The two consecutive assignments that display a state: label first,
then style class. -/
def pairBlock (s : ElemState) : List Event :=
  [Event.setText s.textContent, Event.setClass s.className]

/-- The full trace of an invocation with the element present, for every
fetch outcome: entry, the two checking assignments, the request, then
the pair of terminal assignments selected by the classification. -/
lemma checkApiHealth_trace (net : FetchOutcome) :
    (checkApiHealth true net).1 =
      [Event.invoke, Event.setText "Connessione...",
       Event.setClass "pill warning", Event.fetchReq healthUrl] ++
      (if FetchOutcome.isSuccess net
       then [Event.setText "Online", Event.setClass "pill success"]
       else [Event.setText "Offline", Event.setClass "pill danger"]) := by
  cases net with
  | resolved r =>
    cases hok : r.ok <;>
      simp [checkApiHealth, tryBlock, catchBlock, FetchOutcome.isSuccess, hok]
  | rejected m =>
    simp [checkApiHealth, tryBlock, catchBlock, FetchOutcome.isSuccess]

/-- Final element state of an invocation with the element present: the
terminal state selected by the success/failure classification,
independent of the initial element state. -/
lemma runEvents_checkApiHealth (init : ElemState) (net : FetchOutcome) :
    runEvents init (checkApiHealth true net).1 =
      (if FetchOutcome.isSuccess net then onlineState else offlineState) := by
  obtain ⟨t, c⟩ := init
  rw [checkApiHealth_trace]
  cases hs : FetchOutcome.isSuccess net <;>
    simp [runEvents, applyEvent, onlineState, offlineState]

/-- C1, counterexample: the claimed checking label is never written. In
a concrete run (element present, response 200) no event of the trace
sets the text content to the string claimed by the spec; the script
writes the Italian label instead. -/
theorem connecting_label_never_written :
    ((checkApiHealth true (FetchOutcome.resolved ⟨200, "", []⟩)).1.all
      (fun e => !(e == Event.setText "Connecting…"))) = true ∧
    (checkApiHealth true (FetchOutcome.resolved ⟨200, "", []⟩)).1.contains
      (Event.setText "Connessione...") = true := by
  constructor <;> decide

/-- C1, amended: whenever the status element exists, every invocation
synchronously sets the indicator to the checking state — label
"Connessione..." and class "pill warning" — before the fetch is issued,
for every fetch outcome. -/
theorem checking_state_set_before_network (init : ElemState)
    (net : FetchOutcome) :
    runEvents init (eventsBeforeFetch (checkApiHealth true net).1) =
      checkingState ∧
    ∃ rest, (checkApiHealth true net).1 =
      eventsBeforeFetch (checkApiHealth true net).1 ++
        Event.fetchReq healthUrl :: rest := by
  obtain ⟨t, c⟩ := init
  rw [checkApiHealth_trace]
  cases hs : FetchOutcome.isSuccess net
  · refine ⟨?_, [Event.setText "Offline", Event.setClass "pill danger"], ?_⟩ <;>
      simp [eventsBeforeFetch, runEvents, applyEvent, Event.isFetch,
        checkingState]
  · refine ⟨?_, [Event.setText "Online", Event.setClass "pill success"], ?_⟩ <;>
      simp [eventsBeforeFetch, runEvents, applyEvent, Event.isFetch,
        checkingState]

/-- C2: whenever the element exists and the request resolves with an OK
(2xx) status, the indicator ends in the state label "Online", class
"pill success", from any initial element state. -/
theorem indicator_online_on_ok_response (init : ElemState) (r : Response)
    (h : r.ok = true) :
    runEvents init (checkApiHealth true (FetchOutcome.resolved r)).1 =
      onlineState := by
  rw [runEvents_checkApiHealth]
  simp [FetchOutcome.isSuccess, h]

/-- C2, witness: status 200 is OK and ends Online. -/
theorem indicator_online_on_ok_response_witness :
    (Response.mk 200 "" []).ok = true ∧
    runEvents ⟨"", "pill"⟩
      (checkApiHealth true (FetchOutcome.resolved ⟨200, "", []⟩)).1 =
      onlineState :=
  ⟨by decide, indicator_online_on_ok_response ⟨"", "pill"⟩ ⟨200, "", []⟩
    (by decide)⟩

/-- C3: whenever the element exists and the request fails — a resolved
response with a non-OK status, or a rejection (network error or thrown
exception) — the indicator ends in the single state label "Offline",
class "pill danger", from any initial element state. -/
theorem indicator_offline_on_failure (init : ElemState) (net : FetchOutcome)
    (h : (∃ r, net = FetchOutcome.resolved r ∧ r.ok = false) ∨
         (∃ msg, net = FetchOutcome.rejected msg)) :
    runEvents init (checkApiHealth true net).1 = offlineState := by
  rw [runEvents_checkApiHealth]
  rcases h with ⟨r, rfl, hok⟩ | ⟨msg, rfl⟩
  · simp [FetchOutcome.isSuccess, hok]
  · simp [FetchOutcome.isSuccess]

/-- C3, witness: a simulated connection-refused rejection ends Offline. -/
theorem indicator_offline_on_failure_witness :
    ((∃ r, FetchOutcome.rejected "connection refused" =
        FetchOutcome.resolved r ∧ r.ok = false) ∨
     (∃ msg, FetchOutcome.rejected "connection refused" =
        FetchOutcome.rejected msg)) ∧
    runEvents ⟨"", "pill"⟩
      (checkApiHealth true (FetchOutcome.rejected "connection refused")).1 =
      offlineState :=
  ⟨Or.inr ⟨"connection refused", rfl⟩,
   indicator_offline_on_failure ⟨"", "pill"⟩
     (FetchOutcome.rejected "connection refused")
     (Or.inr ⟨"connection refused", rfl⟩)⟩

/-- C4: if the status element is absent, the invocation mutates no DOM
field, issues no network request, and raises nothing: a complete no-op
apart from entering and returning. -/
theorem absent_element_noop (net : FetchOutcome) :
    checkApiHealth false net = ([Event.invoke], Except.ok ()) ∧
    (∀ init : ElemState,
      runEvents init (checkApiHealth false net).1 = init) ∧
    ((checkApiHealth false net).1.all (fun e => !e.isFetch)) = true :=
  ⟨rfl, fun _ => rfl, rfl⟩

/-- C5: label and style class are written together, in adjacent pairs
taken from the three fixed states, with the only suspension point (the
network request) falling between complete pairs; after a completed
check the element shows exactly one of the two terminal states, and the
three states are pairwise distinct, so no label of one state is ever
observed with the style of another. -/
theorem writes_are_atomic_fixed_pairs (net : FetchOutcome) :
    (checkApiHealth true net).1 =
      Event.invoke :: pairBlock checkingState ++
        Event.fetchReq healthUrl ::
          pairBlock (if FetchOutcome.isSuccess net then onlineState
                     else offlineState) ∧
    (∀ init : ElemState,
      runEvents init (checkApiHealth true net).1 = onlineState ∨
      runEvents init (checkApiHealth true net).1 = offlineState) ∧
    checkingState ≠ onlineState ∧ checkingState ≠ offlineState ∧
    onlineState ≠ offlineState := by
  refine ⟨?_, ?_, by decide, by decide, by decide⟩
  · rw [checkApiHealth_trace]
    cases hs : FetchOutcome.isSuccess net <;>
      simp [pairBlock, checkingState, onlineState, offlineState]
  · intro init
    rw [runEvents_checkApiHealth]
    cases hs : FetchOutcome.isSuccess net <;> simp

/-- C6: checkApiHealth never raises: for every presence of the element
and every fetch outcome (any status code, network failure or thrown
exception) the function completes normally, returning no value. -/
theorem checkApiHealth_never_raises (statusElPresent : Bool)
    (net : FetchOutcome) :
    (checkApiHealth statusElPresent net).2 = Except.ok () := by
  cases statusElPresent
  · rfl
  · cases net with
    | resolved r => cases hok : r.ok <;> simp [checkApiHealth, tryBlock, hok]
    | rejected m => simp [checkApiHealth, tryBlock]

/-- C7: with the element present, every invocation issues exactly one
network request, a GET of the fixed base URL constant followed by
"/health"; no second request (no retry) ever appears in the trace. -/
theorem single_get_request_to_health (net : FetchOutcome) :
    ((checkApiHealth true net).1.filter Event.isFetch) =
      [Event.fetchReq (API_BASE_URL ++ "/health")] := by
  rw [checkApiHealth_trace]
  cases hs : FetchOutcome.isSuccess net <;>
    simp [Event.isFetch, healthUrl]

/-- C8: the final indicator state is a function of the success/failure
classification alone: two runs whose outcomes classify identically end
in the same state, whatever the bodies, headers, particular status
codes within the class, or initial element states. -/
theorem final_state_function_of_classification
    (initA initB : ElemState) (netA netB : FetchOutcome)
    (h : FetchOutcome.isSuccess netA = FetchOutcome.isSuccess netB) :
    runEvents initA (checkApiHealth true netA).1 =
    runEvents initB (checkApiHealth true netB).1 := by
  rw [runEvents_checkApiHealth, runEvents_checkApiHealth, h]

/-- C8, witness: status 204 with a body and a header versus status 200
with neither, from different initial states, end identically. -/
theorem final_state_function_of_classification_witness :
    FetchOutcome.isSuccess
        (FetchOutcome.resolved ⟨204, "body", [("h", "v")]⟩) =
      FetchOutcome.isSuccess (FetchOutcome.resolved ⟨200, "", []⟩) ∧
    runEvents ⟨"a", "b"⟩
      (checkApiHealth true
        (FetchOutcome.resolved ⟨204, "body", [("h", "v")]⟩)).1 =
    runEvents ⟨"", "pill"⟩
      (checkApiHealth true (FetchOutcome.resolved ⟨200, "", []⟩)).1 :=
  ⟨by decide,
   final_state_function_of_classification ⟨"a", "b"⟩ ⟨"", "pill"⟩
     (FetchOutcome.resolved ⟨204, "body", [("h", "v")]⟩)
     (FetchOutcome.resolved ⟨200, "", []⟩) (by decide)⟩

/-- C9: the states observable at the suspension point and at completion
are, in order, the checking state then exactly one terminal state — a
terminal state is never shown before the checking state of the same
invocation — and the script load triggers exactly one invocation. -/
theorem state_machine_order (init : ElemState) (net : FetchOutcome) :
    observedStates init (scriptLoad true net).1 =
      [checkingState,
       if FetchOutcome.isSuccess net then onlineState else offlineState] ∧
    ((scriptLoad true net).1.filter Event.isInvoke) = [Event.invoke] := by
  obtain ⟨t, c⟩ := init
  constructor
  · show observedStates _ (checkApiHealth true net).1 = _
    rw [checkApiHealth_trace]
    cases hs : FetchOutcome.isSuccess net <;>
      simp [observedStates, splitAtFetches, Event.isFetch, runEvents,
        applyEvent, checkingState, onlineState, offlineState]
  · show (checkApiHealth true net).1.filter Event.isInvoke = _
    rw [checkApiHealth_trace]
    cases hs : FetchOutcome.isSuccess net <;>
      simp [Event.isInvoke]

/-- C10: every class assignment in any trace writes "pill " followed by
one of the three state classes, so the base pill class survives every
write. -/
theorem pill_class_preserved (statusElPresent : Bool)
    (net : FetchOutcome) :
    ((checkApiHealth statusElPresent net).1.all (fun e =>
      match e with
      | Event.setClass s =>
          decide (s = "pill " ++ "warning" ∨ s = "pill " ++ "success" ∨
                  s = "pill " ++ "danger")
      | _ => true)) = true := by
  cases statusElPresent
  · rfl
  · rw [checkApiHealth_trace]
    cases hs : FetchOutcome.isSuccess net <;> decide
